import Mathlib

/-!
Shallow embedding of the TCC thermostat sync controller
(src/devices/device.ts, class TCCthermostat) together with proofs about
its refresh, push and host-set paths.

JS numbers are modelled as rationals; `Math.round` rounds half toward
positive infinity, which over the rationals is `fun q => ⌊q + 1/2⌋`.
HomeKit enum constants are the numeric values of the HAP definitions the
code compares against.
-/

namespace TCC

/-- JS `Math.round`: the nearest integer, halves toward positive infinity. -/
def jsRound (q : ℚ) : ℤ := ⌊q + 1 / 2⌋

/-- HAP `TemperatureDisplayUnits.CELSIUS`. -/
def CELSIUS : ℕ := 0

/-- HAP `TemperatureDisplayUnits.FAHRENHEIT`. -/
def FAHRENHEIT : ℕ := 1

/-- HAP `TargetHeatingCoolingState.OFF`. -/
def OFF : ℕ := 0

/-- HAP `TargetHeatingCoolingState.HEAT`. -/
def HEAT : ℕ := 1

/-- HAP `TargetHeatingCoolingState.COOL`. -/
def COOL : ℕ := 2

/-- HAP `TargetHeatingCoolingState.AUTO`. -/
def AUTO : ℕ := 3

/-- HAP `TargetFanState.MANUAL`. -/
def MANUAL : ℕ := 0

/-- HAP `TargetFanState.AUTO`. -/
def FAN_AUTO : ℕ := 1

/-- HAP `Active.INACTIVE`. -/
def INACTIVE : ℕ := 0

/-- HAP `Active.ACTIVE`. -/
def ACTIVE : ℕ := 1

/-- The remote mode union `'Off' | 'Heat' | 'Cool' | 'Auto'` of
`changeableValues.mode` (the TS type restricts it to these four). -/
inductive HMode where
  | off
  | heat
  | cool
  | auto
deriving DecidableEq

/-- `this.modes`: map Honeywell modes to HomeKit `TargetHeatingCoolingState`
values (constructor of TCCthermostat). -/
def modes : HMode → ℕ
  | .off => 0
  | .heat => 1
  | .cool => 2
  | .auto => 3

/-- `this.honeywellMode = ['Off', 'Heat', 'Cool', 'Auto']`: map HomeKit modes
back to Honeywell mode names by array index. -/
def honeywellMode : List String := ["Off", "Heat", "Cool", "Auto"]

/-- `device.changeableValues`. -/
structure ChangeableValues where
  mode : HMode
  heatSetpoint : ℚ
  coolSetpoint : ℚ
deriving DecidableEq

/-- The fan sub-resource `FanChangeableValues` (its `mode` field is what the
code reads). -/
structure FanCV where
  mode : String
deriving DecidableEq

/-- The remote device snapshot (`this.device`), restricted to the fields the
controller reads. `settingsFan` is the truthiness of `device.settings?.fan`. -/
structure TCCDevice where
  units : String
  indoorTemperature : ℚ
  indoorHumidity : ℚ
  changeableValues : ChangeableValues
  operationStatusMode : String
  allowedModes : List String
  minHeatSetpoint : ℚ
  maxHeatSetpoint : ℚ
  minCoolSetpoint : ℚ
  maxCoolSetpoint : ℚ
  settingsFan : Bool
deriving DecidableEq

/-- The controller's mutable state: the remote snapshot, the fan sub-resource
(`this.deviceFan`, absent until the first fan fetch), static config read at
construction, the characteristic fields and the two in-progress flags. -/
structure TCCState where
  device : TCCDevice
  deviceFan : Option FanCV
  hideFan : Bool
  thermostatSetpointStatus : Option String
  CurrentTemperature : ℚ
  TargetTemperature : ℚ
  CurrentHeatingCoolingState : ℕ
  TargetHeatingCoolingState : ℕ
  CoolingThresholdTemperature : ℚ
  HeatingThresholdTemperature : ℚ
  CurrentRelativeHumidity : ℚ
  TemperatureDisplayUnits : ℕ
  Active : ℕ
  TargetFanState : ℕ
  thermostatUpdateInProgress : Bool
  fanUpdateInProgress : Bool
deriving DecidableEq

/-- `toCelsius(value)`: identity when the display-units characteristic is
CELSIUS, otherwise `Math.round((5 / 9) * (value - 32) * 2) / 2`. -/
def toCelsius (units : ℕ) (value : ℚ) : ℚ :=
  if units = CELSIUS then value
  else (jsRound (5 / 9 * (value - 32) * 2) : ℚ) / 2

/-- `toFahrenheit(value)`: identity when the display-units characteristic is
CELSIUS, otherwise `Math.round((value * 9) / 5 + 32)`. -/
def toFahrenheit (units : ℕ) (value : ℚ) : ℚ :=
  if units = CELSIUS then value
  else (jsRound (value * 9 / 5 + 32) : ℚ)

/-- The fan-capability guard `this.device.settings?.fan &&
!this.platform.config.options?.thermostat?.hide_fan` used throughout. -/
def fanVisible (s : TCCState) : Bool := s.device.settingsFan && !s.hideFan

/-- `parseStatus()` step 1: mirror `device.units` into the display-units
characteristic (each branch only fires on its exact string). -/
def parseUnits (s : TCCState) : TCCState :=
  let s := if s.device.units = "Fahrenheit" then
      { s with TemperatureDisplayUnits := FAHRENHEIT } else s
  if s.device.units = "Celsius" then
    { s with TemperatureDisplayUnits := CELSIUS } else s

/-- `parseStatus()` step 2: normalized indoor temperature and humidity. -/
def parseIndoor (s : TCCState) : TCCState :=
  { s with
    CurrentTemperature := toCelsius s.TemperatureDisplayUnits s.device.indoorTemperature,
    CurrentRelativeHumidity := s.device.indoorHumidity }

/-- `parseStatus()` step 3: heating threshold, only when the remote heat
setpoint is strictly positive. -/
def parseHeatThreshold (s : TCCState) : TCCState :=
  if s.device.changeableValues.heatSetpoint > 0 then
    { s with HeatingThresholdTemperature :=
        toCelsius s.TemperatureDisplayUnits s.device.changeableValues.heatSetpoint }
  else s

/-- `parseStatus()` step 4: cooling threshold, only when the remote cool
setpoint is strictly positive. -/
def parseCoolThreshold (s : TCCState) : TCCState :=
  if s.device.changeableValues.coolSetpoint > 0 then
    { s with CoolingThresholdTemperature :=
        toCelsius s.TemperatureDisplayUnits s.device.changeableValues.coolSetpoint }
  else s

/-- `parseStatus()` step 5: target state from the mode table. -/
def parseTHCS (s : TCCState) : TCCState :=
  { s with TargetHeatingCoolingState := modes s.device.changeableValues.mode }

/-- `parseStatus()` step 6: current state from `operationStatus.mode`. -/
def parseCHCS (s : TCCState) : TCCState :=
  { s with CurrentHeatingCoolingState :=
      if s.device.operationStatusMode = "Heat" then 1
      else if s.device.operationStatusMode = "Cool" then 2
      else 0 }

/-- `parseStatus()` step 7: target temperature from the setpoint matching
the target state; the nested ifs are the short-circuit `||` of the source's
`heatSetpoint > 0 || minHeatSetpoint` guards. -/
def parseTargetTemp (s : TCCState) : TCCState :=
  if s.TargetHeatingCoolingState = HEAT then
    if s.device.changeableValues.heatSetpoint > 0 then
      { s with TargetTemperature :=
          toCelsius s.TemperatureDisplayUnits s.device.changeableValues.heatSetpoint }
    else if s.device.minHeatSetpoint ≠ 0 then
      { s with TargetTemperature :=
          toCelsius s.TemperatureDisplayUnits s.device.changeableValues.heatSetpoint }
    else s
  else
    if s.device.changeableValues.coolSetpoint > 0 then
      { s with TargetTemperature :=
          toCelsius s.TemperatureDisplayUnits s.device.changeableValues.coolSetpoint }
    else if s.device.minCoolSetpoint ≠ 0 then
      { s with TargetTemperature :=
          toCelsius s.TemperatureDisplayUnits s.device.changeableValues.coolSetpoint }
    else s

/-- `parseStatus()` step 8: fan characteristics, only when the fan is
visible and a fan sub-resource has been fetched. -/
def parseFan (s : TCCState) : TCCState :=
  if fanVisible s then
    s.deviceFan.elim s (fun fan =>
      if fan.mode = "Auto" then { s with TargetFanState := FAN_AUTO, Active := INACTIVE }
      else if fan.mode = "On" then { s with TargetFanState := MANUAL, Active := ACTIVE }
      else if fan.mode = "Circulate" then { s with TargetFanState := MANUAL, Active := INACTIVE }
      else s)
  else s

/-- `parseStatus()`: recompute the characteristic state from the remote
snapshot (and the fan sub-resource when present), in source order. -/
def parseStatus (s : TCCState) : TCCState :=
  parseFan (parseTargetTemp (parseCHCS (parseTHCS
    (parseCoolThreshold (parseHeatThreshold (parseIndoor (parseUnits s)))))))

/-- The thermostat write payload `{mode, thermostatSetpointStatus,
heatSetpoint, coolSetpoint}`. -/
structure TCCPayload where
  mode : String
  thermostatSetpointStatus : Option String
  heatSetpoint : ℚ
  coolSetpoint : ℚ
deriving DecidableEq

/-- Outcome of `pushChanges()`: the POST payload when one was issued, and
whether `refreshStatus()` was re-run. -/
structure PushOutcome where
  payload : Option TCCPayload
  refreshed : Bool
deriving DecidableEq

/-- The then-branch of `pushChanges()`: build the payload (setpoints chosen
by target state, converted back through `toFahrenheit`), POST it and re-run
the refresh path. -/
def pushChangesBody (s : TCCState) : PushOutcome :=
  let hc : ℚ × ℚ :=
    if s.TargetHeatingCoolingState = HEAT then
      (toFahrenheit s.TemperatureDisplayUnits s.TargetTemperature,
       toFahrenheit s.TemperatureDisplayUnits s.CoolingThresholdTemperature)
    else if s.TargetHeatingCoolingState = COOL then
      (toFahrenheit s.TemperatureDisplayUnits s.HeatingThresholdTemperature,
       toFahrenheit s.TemperatureDisplayUnits s.TargetTemperature)
    else if s.TargetHeatingCoolingState = AUTO then
      (toFahrenheit s.TemperatureDisplayUnits s.HeatingThresholdTemperature,
       toFahrenheit s.TemperatureDisplayUnits s.CoolingThresholdTemperature)
    else
      (toFahrenheit s.TemperatureDisplayUnits s.HeatingThresholdTemperature,
       toFahrenheit s.TemperatureDisplayUnits s.CoolingThresholdTemperature)
  { payload := some
      { mode := honeywellMode.getD s.TargetHeatingCoolingState "undefined",
        thermostatSetpointStatus := s.thermostatSetpointStatus,
        heatSetpoint := hc.1,
        coolSetpoint := hc.2 },
    refreshed := true }

/-- `pushChanges()`: diff the characteristic state against the last-known
snapshot (thresholds in the normalized unit, target state against the mode
table); when something differs, run `pushChangesBody`; otherwise neither
POST nor refresh. The three nested ifs are the short-circuit `||` of the
source's single condition. -/
def pushChanges (s : TCCState) : PushOutcome :=
  if s.HeatingThresholdTemperature
       ≠ toCelsius s.TemperatureDisplayUnits s.device.changeableValues.heatSetpoint then
    pushChangesBody s
  else if s.CoolingThresholdTemperature
       ≠ toCelsius s.TemperatureDisplayUnits s.device.changeableValues.coolSetpoint then
    pushChangesBody s
  else if s.TargetHeatingCoolingState ≠ modes s.device.changeableValues.mode then
    pushChangesBody s
  else { payload := none, refreshed := false }

/-- The characteristics this engine owns. -/
inductive Characteristic where
  | temperatureDisplayUnits
  | currentTemperature
  | currentRelativeHumidity
  | targetTemperature
  | heatingThresholdTemperature
  | coolingThresholdTemperature
  | targetHeatingCoolingState
  | currentHeatingCoolingState
  | targetFanState
  | active
deriving DecidableEq

/-- What `updateCharacteristic` is handed: a numeric value or the error
object passed through by `apiError`. -/
inductive Published where
  | value (v : ℚ)
  | errorMarker
deriving DecidableEq

/-- `updateHomeKitCharacteristics()`: publish every owned characteristic's
current value, the fan pair only when the fan capability is visible. -/
def updateHomeKitCharacteristics (s : TCCState) : List (Characteristic × Published) :=
  [(.temperatureDisplayUnits, .value s.TemperatureDisplayUnits),
   (.currentTemperature, .value s.CurrentTemperature),
   (.currentRelativeHumidity, .value s.CurrentRelativeHumidity),
   (.targetTemperature, .value s.TargetTemperature),
   (.heatingThresholdTemperature, .value s.HeatingThresholdTemperature),
   (.coolingThresholdTemperature, .value s.CoolingThresholdTemperature),
   (.targetHeatingCoolingState, .value s.TargetHeatingCoolingState),
   (.currentHeatingCoolingState, .value s.CurrentHeatingCoolingState)]
  ++ (if fanVisible s then
      [(.targetFanState, .value s.TargetFanState), (.active, .value s.Active)]
    else [])

/-- `apiError(e)`: publish the error object to every owned characteristic,
the fan pair only when the fan capability is visible. -/
def apiError (s : TCCState) : List (Characteristic × Published) :=
  [(.temperatureDisplayUnits, .errorMarker),
   (.currentTemperature, .errorMarker),
   (.currentRelativeHumidity, .errorMarker),
   (.targetTemperature, .errorMarker),
   (.heatingThresholdTemperature, .errorMarker),
   (.coolingThresholdTemperature, .errorMarker),
   (.targetHeatingCoolingState, .errorMarker),
   (.currentHeatingCoolingState, .errorMarker)]
  ++ (if fanVisible s then
      [(.targetFanState, .errorMarker), (.active, .errorMarker)]
    else [])

/-- The `doThermostatUpdate` subscriber when `pushChanges` throws: the tap
sets the in-progress flag, the catch broadcasts `apiError`, and the flag is
cleared after the try/catch. Returns the final state and what was published. -/
def thermostatTickFailure (s : TCCState) : TCCState × List (Characteristic × Published) :=
  let s := { s with thermostatUpdateInProgress := true }
  let published := apiError s
  ({ s with thermostatUpdateInProgress := false }, published)

/-- The `doFanUpdate` subscriber when `pushFanChanges` throws: same shape on
the fan channel's flag. -/
def fanTickFailure (s : TCCState) : TCCState × List (Characteristic × Published) :=
  let s := { s with fanUpdateInProgress := true }
  let published := apiError s
  ({ s with fanUpdateInProgress := false }, published)

/-- The catch branch of `refreshStatus()`: what it publishes, and whether the
out-of-band `refreshAccessToken` side effect on the transport was invoked. -/
def refreshStatusFailure (s : TCCState) : List (Characteristic × Published) × Bool :=
  (apiError s, true)

/-- Externally visible actions a host-originated set handler performs, in
order. `publishTT v` is `updateCharacteristic(TargetTemperature, v)`;
`networkCall` stands for any transport request (set handlers never emit
one — pushes happen later, on the debounced channel). -/
inductive HKEvent where
  | publishTT (v : ℚ)
  | signalThermostat
  | signalFan
  | ackNull
  | networkCall
deriving DecidableEq

/-- `setTargetHeatingCoolingState(value, callback)`: store the value,
recompute target temperature from the current remote setpoints for the new
mode, publish it, signal the thermostat channel, acknowledge with null. -/
def setTargetHeatingCoolingState (s : TCCState) (value : ℕ) : TCCState × List HKEvent :=
  let s := { s with TargetHeatingCoolingState := value }
  let tt :=
    if s.TargetHeatingCoolingState = HEAT then
      toCelsius s.TemperatureDisplayUnits s.device.changeableValues.heatSetpoint
    else
      toCelsius s.TemperatureDisplayUnits s.device.changeableValues.coolSetpoint
  let s := { s with TargetTemperature := tt }
  (s, [.publishTT tt, .signalThermostat, .ackNull])

/-- `setHeatingThresholdTemperature(value, callback)`. -/
def setHeatingThresholdTemperature (s : TCCState) (value : ℚ) : TCCState × List HKEvent :=
  ({ s with HeatingThresholdTemperature := value }, [.signalThermostat, .ackNull])

/-- `setCoolingThresholdTemperature(value, callback)`. -/
def setCoolingThresholdTemperature (s : TCCState) (value : ℚ) : TCCState × List HKEvent :=
  ({ s with CoolingThresholdTemperature := value }, [.signalThermostat, .ackNull])

/-- `setTargetTemperature(value, callback)`. -/
def setTargetTemperature (s : TCCState) (value : ℚ) : TCCState × List HKEvent :=
  ({ s with TargetTemperature := value }, [.signalThermostat, .ackNull])

/-- `setActive(value, callback)`. -/
def setActive (s : TCCState) (value : ℕ) : TCCState × List HKEvent :=
  ({ s with Active := value }, [.signalFan, .ackNull])

/-- `setTargetFanState(value, callback)`. -/
def setTargetFanState (s : TCCState) (value : ℕ) : TCCState × List HKEvent :=
  ({ s with TargetFanState := value }, [.signalFan, .ackNull])

/-- `TargetState()`: start from the `[4]` placeholder array, pop it, then
push COOL, HEAT, OFF, AUTO in that order when allowed. -/
def TargetState (allowedModes : List String) : List ℕ :=
  let ts : List ℕ := [4]
  let ts := ts.dropLast
  let ts := if allowedModes.contains "Cool" then ts ++ [COOL] else ts
  let ts := if allowedModes.contains "Heat" then ts ++ [HEAT] else ts
  let ts := if allowedModes.contains "Off" then ts ++ [OFF] else ts
  let ts := if allowedModes.contains "Auto" then ts ++ [AUTO] else ts
  ts

/-- Outcome of `pushFanChanges()`: the fan mode POSTed (when the fan branch
was taken) and whether the refresh path was re-run. -/
structure FanPushOutcome where
  payload : Option String
  refreshed : Bool
deriving DecidableEq

/-- `pushFanChanges()`: map (TargetFanState, Active) to a remote fan mode
(default 'Auto'), POST it when the fan capability is visible, and always
re-run `refreshStatus()` afterward. -/
def pushFanChanges (s : TCCState) : FanPushOutcome :=
  let payload := "Auto"
  if fanVisible s then
    let payload :=
      if s.TargetFanState = FAN_AUTO then "Auto"
      else if s.TargetFanState = MANUAL then
        if s.Active = ACTIVE then "On"
        else if s.Active = INACTIVE then "Circulate"
        else payload
      else payload
    { payload := some payload, refreshed := true }
  else { payload := none, refreshed := true }

/-- The spec's `computeAllowedTargetStates`: the ordered subset of
Cool, Heat, Off, Auto (fixed emission order) present in the allowed set.
Stated from the spec's words, to be compared with `TargetState`. -/
def computeAllowedTargetStates (allowedModes : List String) : List ℕ :=
  [COOL, HEAT, OFF, AUTO].filter (fun m => allowedModes.contains (honeywellMode.getD m ""))

/-- A concrete Fahrenheit device in Heat mode with ordinary setpoints. -/
def exDevice : TCCDevice :=
  { units := "Fahrenheit", indoorTemperature := 70, indoorHumidity := 40,
    changeableValues := { mode := .heat, heatSetpoint := 68, coolSetpoint := 75 },
    operationStatusMode := "Heat",
    allowedModes := ["Heat", "Off"], minHeatSetpoint := 40, maxHeatSetpoint := 90,
    minCoolSetpoint := 50, maxCoolSetpoint := 99, settingsFan := true }

/-- A concrete controller state around `exDevice`, fan visible. -/
def exState : TCCState :=
  { device := exDevice, deviceFan := some { mode := "Auto" }, hideFan := false,
    thermostatSetpointStatus := some "TemporaryHold",
    CurrentTemperature := 21, TargetTemperature := 25,
    CurrentHeatingCoolingState := 0, TargetHeatingCoolingState := 1,
    CoolingThresholdTemperature := 25, HeatingThresholdTemperature := 20,
    CurrentRelativeHumidity := 40, TemperatureDisplayUnits := FAHRENHEIT,
    Active := 0, TargetFanState := 0,
    thermostatUpdateInProgress := false, fanUpdateInProgress := false }

/-- A Celsius snapshot whose mode is Heat but whose heat setpoint and
minHeatSetpoint are both 0. -/
def exC8 : TCCState :=
  { device :=
      { units := "Celsius", indoorTemperature := 21, indoorHumidity := 40,
        changeableValues := { mode := .heat, heatSetpoint := 0, coolSetpoint := 24 },
        operationStatusMode := "Off",
        allowedModes := ["Heat", "Off"], minHeatSetpoint := 0, maxHeatSetpoint := 30,
        minCoolSetpoint := 10, maxCoolSetpoint := 37, settingsFan := false },
    deviceFan := none, hideFan := false, thermostatSetpointStatus := none,
    CurrentTemperature := 21, TargetTemperature := 25,
    CurrentHeatingCoolingState := 0, TargetHeatingCoolingState := 1,
    CoolingThresholdTemperature := 24, HeatingThresholdTemperature := 20,
    CurrentRelativeHumidity := 40, TemperatureDisplayUnits := CELSIUS,
    Active := 0, TargetFanState := 0,
    thermostatUpdateInProgress := false, fanUpdateInProgress := false }

/-- A Fahrenheit-display state whose remote heat setpoint is 0 with a
nonzero minHeatSetpoint. -/
def exC10 : TCCState :=
  { device :=
      { units := "Fahrenheit", indoorTemperature := 70, indoorHumidity := 40,
        changeableValues := { mode := .heat, heatSetpoint := 0, coolSetpoint := 75 },
        operationStatusMode := "Off",
        allowedModes := ["Heat", "Off"], minHeatSetpoint := 40, maxHeatSetpoint := 90,
        minCoolSetpoint := 50, maxCoolSetpoint := 99, settingsFan := false },
    deviceFan := none, hideFan := false, thermostatSetpointStatus := none,
    CurrentTemperature := 21, TargetTemperature := 25,
    CurrentHeatingCoolingState := 0, TargetHeatingCoolingState := 1,
    CoolingThresholdTemperature := 25, HeatingThresholdTemperature := 20,
    CurrentRelativeHumidity := 40, TemperatureDisplayUnits := FAHRENHEIT,
    Active := 0, TargetFanState := 0,
    thermostatUpdateInProgress := false, fanUpdateInProgress := false }

theorem jsRound_le (q : ℚ) : (jsRound q : ℚ) ≤ q + 1 / 2 :=
  Int.floor_le _

theorem lt_jsRound (q : ℚ) : q - 1 / 2 < (jsRound q : ℚ) := by
  have h := Int.sub_one_lt_floor (q + 1 / 2)
  unfold jsRound
  linarith

/-! Projection lemmas: which characteristic fields each `parseStatus` step
reads and writes. -/

@[simp] theorem parseUnits_device (s : TCCState) : (parseUnits s).device = s.device := by
  unfold parseUnits
  by_cases h1 : s.device.units = "Fahrenheit" <;>
    by_cases h2 : s.device.units = "Celsius" <;> simp [h1, h2]

@[simp] theorem parseUnits_HTT (s : TCCState) :
    (parseUnits s).HeatingThresholdTemperature = s.HeatingThresholdTemperature := by
  unfold parseUnits
  by_cases h1 : s.device.units = "Fahrenheit" <;>
    by_cases h2 : s.device.units = "Celsius" <;> simp [h1, h2]

@[simp] theorem parseUnits_CTT (s : TCCState) :
    (parseUnits s).CoolingThresholdTemperature = s.CoolingThresholdTemperature := by
  unfold parseUnits
  by_cases h1 : s.device.units = "Fahrenheit" <;>
    by_cases h2 : s.device.units = "Celsius" <;> simp [h1, h2]

@[simp] theorem parseUnits_TT (s : TCCState) :
    (parseUnits s).TargetTemperature = s.TargetTemperature := by
  unfold parseUnits
  by_cases h1 : s.device.units = "Fahrenheit" <;>
    by_cases h2 : s.device.units = "Celsius" <;> simp [h1, h2]

@[simp] theorem parseUnits_THCS (s : TCCState) :
    (parseUnits s).TargetHeatingCoolingState = s.TargetHeatingCoolingState := by
  unfold parseUnits
  by_cases h1 : s.device.units = "Fahrenheit" <;>
    by_cases h2 : s.device.units = "Celsius" <;> simp [h1, h2]

theorem parseUnits_TDU (s : TCCState) :
    (parseUnits s).TemperatureDisplayUnits =
      if s.device.units = "Celsius" then CELSIUS
      else if s.device.units = "Fahrenheit" then FAHRENHEIT
      else s.TemperatureDisplayUnits := by
  unfold parseUnits
  by_cases h1 : s.device.units = "Fahrenheit" <;>
    by_cases h2 : s.device.units = "Celsius" <;> simp [h1, h2]

@[simp] theorem parseIndoor_device (s : TCCState) : (parseIndoor s).device = s.device := rfl

@[simp] theorem parseIndoor_TDU (s : TCCState) :
    (parseIndoor s).TemperatureDisplayUnits = s.TemperatureDisplayUnits := rfl

@[simp] theorem parseIndoor_HTT (s : TCCState) :
    (parseIndoor s).HeatingThresholdTemperature = s.HeatingThresholdTemperature := rfl

@[simp] theorem parseIndoor_CTT (s : TCCState) :
    (parseIndoor s).CoolingThresholdTemperature = s.CoolingThresholdTemperature := rfl

@[simp] theorem parseIndoor_TT (s : TCCState) :
    (parseIndoor s).TargetTemperature = s.TargetTemperature := rfl

@[simp] theorem parseIndoor_THCS (s : TCCState) :
    (parseIndoor s).TargetHeatingCoolingState = s.TargetHeatingCoolingState := rfl

@[simp] theorem parseHeatThreshold_device (s : TCCState) :
    (parseHeatThreshold s).device = s.device := by
  unfold parseHeatThreshold; split <;> rfl

@[simp] theorem parseHeatThreshold_TDU (s : TCCState) :
    (parseHeatThreshold s).TemperatureDisplayUnits = s.TemperatureDisplayUnits := by
  unfold parseHeatThreshold; split <;> rfl

@[simp] theorem parseHeatThreshold_CTT (s : TCCState) :
    (parseHeatThreshold s).CoolingThresholdTemperature = s.CoolingThresholdTemperature := by
  unfold parseHeatThreshold; split <;> rfl

@[simp] theorem parseHeatThreshold_TT (s : TCCState) :
    (parseHeatThreshold s).TargetTemperature = s.TargetTemperature := by
  unfold parseHeatThreshold; split <;> rfl

@[simp] theorem parseHeatThreshold_THCS (s : TCCState) :
    (parseHeatThreshold s).TargetHeatingCoolingState = s.TargetHeatingCoolingState := by
  unfold parseHeatThreshold; split <;> rfl

theorem parseHeatThreshold_HTT (s : TCCState) :
    (parseHeatThreshold s).HeatingThresholdTemperature =
      if s.device.changeableValues.heatSetpoint > 0 then
        toCelsius s.TemperatureDisplayUnits s.device.changeableValues.heatSetpoint
      else s.HeatingThresholdTemperature := by
  unfold parseHeatThreshold; split <;> rfl

@[simp] theorem parseCoolThreshold_device (s : TCCState) :
    (parseCoolThreshold s).device = s.device := by
  unfold parseCoolThreshold; split <;> rfl

@[simp] theorem parseCoolThreshold_TDU (s : TCCState) :
    (parseCoolThreshold s).TemperatureDisplayUnits = s.TemperatureDisplayUnits := by
  unfold parseCoolThreshold; split <;> rfl

@[simp] theorem parseCoolThreshold_HTT (s : TCCState) :
    (parseCoolThreshold s).HeatingThresholdTemperature = s.HeatingThresholdTemperature := by
  unfold parseCoolThreshold; split <;> rfl

@[simp] theorem parseCoolThreshold_TT (s : TCCState) :
    (parseCoolThreshold s).TargetTemperature = s.TargetTemperature := by
  unfold parseCoolThreshold; split <;> rfl

@[simp] theorem parseCoolThreshold_THCS (s : TCCState) :
    (parseCoolThreshold s).TargetHeatingCoolingState = s.TargetHeatingCoolingState := by
  unfold parseCoolThreshold; split <;> rfl

theorem parseCoolThreshold_CTT (s : TCCState) :
    (parseCoolThreshold s).CoolingThresholdTemperature =
      if s.device.changeableValues.coolSetpoint > 0 then
        toCelsius s.TemperatureDisplayUnits s.device.changeableValues.coolSetpoint
      else s.CoolingThresholdTemperature := by
  unfold parseCoolThreshold; split <;> rfl

@[simp] theorem parseTHCS_device (s : TCCState) : (parseTHCS s).device = s.device := rfl

@[simp] theorem parseTHCS_TDU (s : TCCState) :
    (parseTHCS s).TemperatureDisplayUnits = s.TemperatureDisplayUnits := rfl

@[simp] theorem parseTHCS_HTT (s : TCCState) :
    (parseTHCS s).HeatingThresholdTemperature = s.HeatingThresholdTemperature := rfl

@[simp] theorem parseTHCS_CTT (s : TCCState) :
    (parseTHCS s).CoolingThresholdTemperature = s.CoolingThresholdTemperature := rfl

@[simp] theorem parseTHCS_TT (s : TCCState) :
    (parseTHCS s).TargetTemperature = s.TargetTemperature := rfl

@[simp] theorem parseTHCS_THCS (s : TCCState) :
    (parseTHCS s).TargetHeatingCoolingState = modes s.device.changeableValues.mode := rfl

@[simp] theorem parseCHCS_device (s : TCCState) : (parseCHCS s).device = s.device := rfl

@[simp] theorem parseCHCS_TDU (s : TCCState) :
    (parseCHCS s).TemperatureDisplayUnits = s.TemperatureDisplayUnits := rfl

@[simp] theorem parseCHCS_HTT (s : TCCState) :
    (parseCHCS s).HeatingThresholdTemperature = s.HeatingThresholdTemperature := rfl

@[simp] theorem parseCHCS_CTT (s : TCCState) :
    (parseCHCS s).CoolingThresholdTemperature = s.CoolingThresholdTemperature := rfl

@[simp] theorem parseCHCS_TT (s : TCCState) :
    (parseCHCS s).TargetTemperature = s.TargetTemperature := rfl

@[simp] theorem parseCHCS_THCS (s : TCCState) :
    (parseCHCS s).TargetHeatingCoolingState = s.TargetHeatingCoolingState := rfl

@[simp] theorem parseTargetTemp_device (s : TCCState) :
    (parseTargetTemp s).device = s.device := by
  unfold parseTargetTemp; split_ifs <;> rfl

@[simp] theorem parseTargetTemp_TDU (s : TCCState) :
    (parseTargetTemp s).TemperatureDisplayUnits = s.TemperatureDisplayUnits := by
  unfold parseTargetTemp; split_ifs <;> rfl

@[simp] theorem parseTargetTemp_HTT (s : TCCState) :
    (parseTargetTemp s).HeatingThresholdTemperature = s.HeatingThresholdTemperature := by
  unfold parseTargetTemp; split_ifs <;> rfl

@[simp] theorem parseTargetTemp_CTT (s : TCCState) :
    (parseTargetTemp s).CoolingThresholdTemperature = s.CoolingThresholdTemperature := by
  unfold parseTargetTemp; split_ifs <;> rfl

@[simp] theorem parseTargetTemp_THCS (s : TCCState) :
    (parseTargetTemp s).TargetHeatingCoolingState = s.TargetHeatingCoolingState := by
  unfold parseTargetTemp; split_ifs <;> rfl

theorem parseTargetTemp_TT (s : TCCState) :
    (parseTargetTemp s).TargetTemperature =
      if s.TargetHeatingCoolingState = HEAT then
        if s.device.changeableValues.heatSetpoint > 0 then
          toCelsius s.TemperatureDisplayUnits s.device.changeableValues.heatSetpoint
        else if s.device.minHeatSetpoint ≠ 0 then
          toCelsius s.TemperatureDisplayUnits s.device.changeableValues.heatSetpoint
        else s.TargetTemperature
      else
        if s.device.changeableValues.coolSetpoint > 0 then
          toCelsius s.TemperatureDisplayUnits s.device.changeableValues.coolSetpoint
        else if s.device.minCoolSetpoint ≠ 0 then
          toCelsius s.TemperatureDisplayUnits s.device.changeableValues.coolSetpoint
        else s.TargetTemperature := by
  unfold parseTargetTemp; split_ifs <;> rfl

@[simp] theorem parseFan_device (s : TCCState) : (parseFan s).device = s.device := by
  unfold parseFan
  rcases hdf : s.deviceFan with _ | fan <;>
    by_cases hv : fanVisible s <;> simp [hv, hdf] <;> split_ifs <;> rfl

@[simp] theorem parseFan_TDU (s : TCCState) :
    (parseFan s).TemperatureDisplayUnits = s.TemperatureDisplayUnits := by
  unfold parseFan
  rcases hdf : s.deviceFan with _ | fan <;>
    by_cases hv : fanVisible s <;> simp [hv, hdf] <;> split_ifs <;> rfl

@[simp] theorem parseFan_HTT (s : TCCState) :
    (parseFan s).HeatingThresholdTemperature = s.HeatingThresholdTemperature := by
  unfold parseFan
  rcases hdf : s.deviceFan with _ | fan <;>
    by_cases hv : fanVisible s <;> simp [hv, hdf] <;> split_ifs <;> rfl

@[simp] theorem parseFan_CTT (s : TCCState) :
    (parseFan s).CoolingThresholdTemperature = s.CoolingThresholdTemperature := by
  unfold parseFan
  rcases hdf : s.deviceFan with _ | fan <;>
    by_cases hv : fanVisible s <;> simp [hv, hdf] <;> split_ifs <;> rfl

@[simp] theorem parseFan_TT (s : TCCState) :
    (parseFan s).TargetTemperature = s.TargetTemperature := by
  unfold parseFan
  rcases hdf : s.deviceFan with _ | fan <;>
    by_cases hv : fanVisible s <;> simp [hv, hdf] <;> split_ifs <;> rfl

@[simp] theorem parseFan_THCS (s : TCCState) :
    (parseFan s).TargetHeatingCoolingState = s.TargetHeatingCoolingState := by
  unfold parseFan
  rcases hdf : s.deviceFan with _ | fan <;>
    by_cases hv : fanVisible s <;> simp [hv, hdf] <;> split_ifs <;> rfl

/-! Derived characterizations of the refresh recomputation. -/

theorem parseStatus_device (s : TCCState) : (parseStatus s).device = s.device := by
  simp [parseStatus]

theorem parseStatus_TDU (s : TCCState) :
    (parseStatus s).TemperatureDisplayUnits = (parseUnits s).TemperatureDisplayUnits := by
  simp [parseStatus]

theorem parseStatus_HTT (s : TCCState) :
    (parseStatus s).HeatingThresholdTemperature =
      if s.device.changeableValues.heatSetpoint > 0 then
        toCelsius (parseUnits s).TemperatureDisplayUnits s.device.changeableValues.heatSetpoint
      else s.HeatingThresholdTemperature := by
  simp [parseStatus, parseHeatThreshold_HTT]

theorem parseStatus_CTT (s : TCCState) :
    (parseStatus s).CoolingThresholdTemperature =
      if s.device.changeableValues.coolSetpoint > 0 then
        toCelsius (parseUnits s).TemperatureDisplayUnits s.device.changeableValues.coolSetpoint
      else s.CoolingThresholdTemperature := by
  simp [parseStatus, parseCoolThreshold_CTT]

theorem parseStatus_THCS (s : TCCState) :
    (parseStatus s).TargetHeatingCoolingState = modes s.device.changeableValues.mode := by
  simp [parseStatus]

theorem parseStatus_TT (s : TCCState) :
    (parseStatus s).TargetTemperature =
      if modes s.device.changeableValues.mode = HEAT then
        if s.device.changeableValues.heatSetpoint > 0 then
          toCelsius (parseUnits s).TemperatureDisplayUnits s.device.changeableValues.heatSetpoint
        else if s.device.minHeatSetpoint ≠ 0 then
          toCelsius (parseUnits s).TemperatureDisplayUnits s.device.changeableValues.heatSetpoint
        else s.TargetTemperature
      else
        if s.device.changeableValues.coolSetpoint > 0 then
          toCelsius (parseUnits s).TemperatureDisplayUnits s.device.changeableValues.coolSetpoint
        else if s.device.minCoolSetpoint ≠ 0 then
          toCelsius (parseUnits s).TemperatureDisplayUnits s.device.changeableValues.coolSetpoint
        else s.TargetTemperature := by
  simp [parseStatus, parseTargetTemp_TT]


/-- C4: `toCelsius` is the identity when the display unit is Celsius and
otherwise `round((5/9)*(value-32)*2)/2`, a half-degree quantization of the
exact Celsius value (within 1/4 of it); `toFahrenheit` is the identity when
the display unit is Celsius and otherwise `round(value*9/5+32)`, the nearest
whole degree (within 1/2 of the exact value); and
`toCelsius Fahrenheit 32 = 0`, `toCelsius Fahrenheit 212 = 100`,
`toFahrenheit Fahrenheit 0 = 32`. -/
theorem toCelsius_toFahrenheit_spec :
    (∀ v : ℚ, toCelsius CELSIUS v = v) ∧
    (∀ v : ℚ, toCelsius FAHRENHEIT v = (jsRound (5 / 9 * (v - 32) * 2) : ℚ) / 2) ∧
    (∀ v : ℚ, ∃ n : ℤ, toCelsius FAHRENHEIT v = (n : ℚ) / 2) ∧
    (∀ v : ℚ, |toCelsius FAHRENHEIT v - 5 / 9 * (v - 32)| ≤ 1 / 4) ∧
    (∀ v : ℚ, toFahrenheit CELSIUS v = v) ∧
    (∀ v : ℚ, toFahrenheit FAHRENHEIT v = (jsRound (v * 9 / 5 + 32) : ℚ)) ∧
    (∀ v : ℚ, |toFahrenheit FAHRENHEIT v - (v * 9 / 5 + 32)| ≤ 1 / 2) ∧
    toCelsius FAHRENHEIT 32 = 0 ∧ toCelsius FAHRENHEIT 212 = 100 ∧
    toFahrenheit FAHRENHEIT 0 = 32 := by
  have hne : FAHRENHEIT ≠ CELSIUS := by decide
  refine ⟨fun v => by simp [toCelsius, CELSIUS], fun v => ?_, fun v => ?_, fun v => ?_,
    fun v => by simp [toFahrenheit, CELSIUS], fun v => ?_, fun v => ?_,
    by norm_num [toCelsius, jsRound, FAHRENHEIT, CELSIUS],
    by norm_num [toCelsius, jsRound, FAHRENHEIT, CELSIUS],
    by norm_num [toFahrenheit, jsRound, FAHRENHEIT, CELSIUS]⟩
  · simp [toCelsius, if_neg hne]
  · exact ⟨jsRound (5 / 9 * (v - 32) * 2), by simp [toCelsius, if_neg hne]⟩
  · rw [toCelsius, if_neg hne]
    have h1 := jsRound_le (5 / 9 * (v - 32) * 2)
    have h2 := lt_jsRound (5 / 9 * (v - 32) * 2)
    rw [abs_le]
    constructor <;> linarith
  · simp [toFahrenheit, if_neg hne]
  · rw [toFahrenheit, if_neg hne]
    have h1 := jsRound_le (v * 9 / 5 + 32)
    have h2 := lt_jsRound (v * 9 / 5 + 32)
    rw [abs_le]
    constructor <;> linarith

/-- C5: for every Fahrenheit input `v`, the round trip
`toCelsius (toFahrenheit (toCelsius v))` reproduces `toCelsius v` to within
0.5 degrees. -/
theorem toCelsius_roundTrip (v : ℚ) :
    |toCelsius FAHRENHEIT (toFahrenheit FAHRENHEIT (toCelsius FAHRENHEIT v))
      - toCelsius FAHRENHEIT v| ≤ 1 / 2 := by
  have hne : FAHRENHEIT ≠ CELSIUS := by decide
  simp only [toCelsius, toFahrenheit, if_neg hne]
  set n : ℤ := jsRound (5 / 9 * (v - 32) * 2) with hn
  set f : ℤ := jsRound ((n : ℚ) / 2 * 9 / 5 + 32) with hf
  set k : ℤ := jsRound (5 / 9 * ((f : ℚ) - 32) * 2) with hk
  have hf1 := jsRound_le ((n : ℚ) / 2 * 9 / 5 + 32)
  have hf2 := lt_jsRound ((n : ℚ) / 2 * 9 / 5 + 32)
  have hk1 := jsRound_le (5 / 9 * ((f : ℚ) - 32) * 2)
  have hk2 := lt_jsRound (5 / 9 * ((f : ℚ) - 32) * 2)
  rw [← hf] at hf1 hf2
  rw [← hk] at hk1 hk2
  have hlt : (k : ℚ) < (n : ℚ) + 2 := by linarith
  have hgt : (n : ℚ) - 2 < (k : ℚ) := by linarith
  have hlt2 : k < n + 2 := by exact_mod_cast hlt
  have hgt2 : n - 2 < k := by exact_mod_cast hgt
  have h3 : (k : ℚ) ≤ (n : ℚ) + 1 := by exact_mod_cast (by omega : k ≤ n + 1)
  have h4 : (n : ℚ) - 1 ≤ (k : ℚ) := by exact_mod_cast (by omega : n - 1 ≤ k)
  rw [abs_le]
  constructor <;> linarith


/-- C6: `TargetState` returns exactly the subset of mode values present in
`allowedModes`, in the fixed emission order Cool, Heat, Off, Auto (the
spec-side `computeAllowedTargetStates`); the placeholder 4 never appears;
and for `['Heat','Off']` it returns `[HEAT, OFF]` in that exact order. -/
theorem TargetState_spec (allowedModes : List String) :
    TargetState allowedModes = computeAllowedTargetStates allowedModes ∧
    (TargetState allowedModes).contains 4 = false ∧
    TargetState ["Heat", "Off"] = [HEAT, OFF] := by
  have hcon : TargetState ["Heat", "Off"] = [HEAT, OFF] := by decide
  refine ⟨?_, ?_, hcon⟩ <;>
  · by_cases hC : "Cool" ∈ allowedModes <;>
    by_cases hH : "Heat" ∈ allowedModes <;>
    by_cases hO : "Off" ∈ allowedModes <;>
    by_cases hA : "Auto" ∈ allowedModes <;>
      simp [TargetState, computeAllowedTargetStates, honeywellMode, hC, hH, hO, hA,
        List.getD, COOL, HEAT, OFF, AUTO]


/-- C7: during `parseStatus` the heating threshold is overwritten exactly
when the remote heat setpoint is strictly positive, and the cooling
threshold exactly when the remote cool setpoint is strictly positive; a
zero (or negative) remote setpoint leaves the previously-held threshold
unchanged. -/
theorem parseStatus_thresholds (s : TCCState) :
    (s.device.changeableValues.heatSetpoint ≤ 0 →
      (parseStatus s).HeatingThresholdTemperature = s.HeatingThresholdTemperature) ∧
    (s.device.changeableValues.heatSetpoint > 0 →
      (parseStatus s).HeatingThresholdTemperature
        = toCelsius (parseStatus s).TemperatureDisplayUnits
            s.device.changeableValues.heatSetpoint) ∧
    (s.device.changeableValues.coolSetpoint ≤ 0 →
      (parseStatus s).CoolingThresholdTemperature = s.CoolingThresholdTemperature) ∧
    (s.device.changeableValues.coolSetpoint > 0 →
      (parseStatus s).CoolingThresholdTemperature
        = toCelsius (parseStatus s).TemperatureDisplayUnits
            s.device.changeableValues.coolSetpoint) := by
  refine ⟨fun h => ?_, fun h => ?_, fun h => ?_, fun h => ?_⟩
  · rw [parseStatus_HTT, if_neg (not_lt.mpr h)]
  · rw [parseStatus_HTT, if_pos h, parseStatus_TDU]
  · rw [parseStatus_CTT, if_neg (not_lt.mpr h)]
  · rw [parseStatus_CTT, if_pos h, parseStatus_TDU]

/-- C8 (amended): after `parseStatus`, the target state is the mode-table
value of the snapshot mode, and the target temperature equals the
normalized heat setpoint when the target state is Heat — provided the heat
setpoint is positive or `minHeatSetpoint` is nonzero (truthy) — and
otherwise equals the normalized cool setpoint under the symmetric proviso;
when the guard fails the previously-held target temperature is retained. -/
theorem parseStatus_targetTemperature (s : TCCState) :
    ((parseStatus s).TargetHeatingCoolingState = modes s.device.changeableValues.mode) ∧
    ((parseStatus s).TargetHeatingCoolingState = HEAT →
      (s.device.changeableValues.heatSetpoint > 0 ∨ s.device.minHeatSetpoint ≠ 0 →
        (parseStatus s).TargetTemperature
          = toCelsius (parseStatus s).TemperatureDisplayUnits
              s.device.changeableValues.heatSetpoint) ∧
      (s.device.changeableValues.heatSetpoint ≤ 0 → s.device.minHeatSetpoint = 0 →
        (parseStatus s).TargetTemperature = s.TargetTemperature)) ∧
    ((parseStatus s).TargetHeatingCoolingState ≠ HEAT →
      (s.device.changeableValues.coolSetpoint > 0 ∨ s.device.minCoolSetpoint ≠ 0 →
        (parseStatus s).TargetTemperature
          = toCelsius (parseStatus s).TemperatureDisplayUnits
              s.device.changeableValues.coolSetpoint) ∧
      (s.device.changeableValues.coolSetpoint ≤ 0 → s.device.minCoolSetpoint = 0 →
        (parseStatus s).TargetTemperature = s.TargetTemperature)) := by
  refine ⟨parseStatus_THCS s, fun hH => ⟨fun hg => ?_, fun h1 h2 => ?_⟩,
    fun hH => ⟨fun hg => ?_, fun h1 h2 => ?_⟩⟩ <;>
    rw [parseStatus_THCS] at hH <;> rw [parseStatus_TT] <;>
    try rw [parseStatus_TDU]
  · rcases hg with hg | hg
    · rw [if_pos hH, if_pos hg]
    · rw [if_pos hH]
      by_cases hs : s.device.changeableValues.heatSetpoint > 0
      · rw [if_pos hs]
      · rw [if_neg hs, if_pos hg]
  · rw [if_pos hH, if_neg (not_lt.mpr h1), if_neg (fun hc => hc h2)]
  · rcases hg with hg | hg
    · rw [if_neg hH, if_pos hg]
    · rw [if_neg hH]
      by_cases hs : s.device.changeableValues.coolSetpoint > 0
      · rw [if_pos hs]
      · rw [if_neg hs, if_pos hg]
  · rw [if_neg hH, if_neg (not_lt.mpr h1), if_neg (fun hc => hc h2)]

/-- C8 counterexample: on a snapshot in Heat mode with `heatSetpoint = 0`
and `minHeatSetpoint = 0`, `parseStatus` leaves the target temperature at
its previous value (25), which differs from the normalized heat setpoint
(0) — so the claim as stated fails. -/
theorem parseStatus_targetTemperature_cex :
    (parseStatus exC8).TargetHeatingCoolingState = HEAT ∧
    (parseStatus exC8).TargetTemperature
      ≠ toCelsius (parseStatus exC8).TemperatureDisplayUnits
          exC8.device.changeableValues.heatSetpoint := by
  constructor
  · rw [parseStatus_THCS]; decide
  · rw [parseStatus_TT, parseStatus_TDU, parseUnits_TDU]
    norm_num [exC8, toCelsius, CELSIUS, HEAT, modes]


/-- C1: `pushChanges` issues a network write iff the target state or one of
the two thresholds (compared in the normalized unit) differs from the
last-known remote snapshot; the payload setpoints are chosen by target
state (Heat: target temperature as heat, cooling threshold as cool; Cool:
target temperature as cool, heating threshold as heat; Auto or Off: both
thresholds verbatim), each converted to the remote unit via `toFahrenheit`;
and the refresh path is re-run exactly when a write was issued. -/
theorem pushChanges_spec (s : TCCState) :
    (((pushChanges s).payload.isSome = true) ↔
      (s.HeatingThresholdTemperature
          ≠ toCelsius s.TemperatureDisplayUnits s.device.changeableValues.heatSetpoint
        ∨ s.CoolingThresholdTemperature
          ≠ toCelsius s.TemperatureDisplayUnits s.device.changeableValues.coolSetpoint
        ∨ s.TargetHeatingCoolingState ≠ modes s.device.changeableValues.mode)) ∧
    ((pushChanges s).refreshed = (pushChanges s).payload.isSome) ∧
    (∀ p : TCCPayload, (pushChanges s).payload = some p →
      p.mode = honeywellMode.getD s.TargetHeatingCoolingState "undefined" ∧
      p.thermostatSetpointStatus = s.thermostatSetpointStatus ∧
      (s.TargetHeatingCoolingState = HEAT →
        p.heatSetpoint = toFahrenheit s.TemperatureDisplayUnits s.TargetTemperature ∧
        p.coolSetpoint = toFahrenheit s.TemperatureDisplayUnits s.CoolingThresholdTemperature) ∧
      (s.TargetHeatingCoolingState = COOL →
        p.coolSetpoint = toFahrenheit s.TemperatureDisplayUnits s.TargetTemperature ∧
        p.heatSetpoint = toFahrenheit s.TemperatureDisplayUnits s.HeatingThresholdTemperature) ∧
      (s.TargetHeatingCoolingState = AUTO ∨ s.TargetHeatingCoolingState = OFF →
        p.heatSetpoint = toFahrenheit s.TemperatureDisplayUnits s.HeatingThresholdTemperature ∧
        p.coolSetpoint = toFahrenheit s.TemperatureDisplayUnits s.CoolingThresholdTemperature)) := by
  have hbody : ∀ p : TCCPayload, (pushChangesBody s).payload = some p →
      p.mode = honeywellMode.getD s.TargetHeatingCoolingState "undefined" ∧
      p.thermostatSetpointStatus = s.thermostatSetpointStatus ∧
      (s.TargetHeatingCoolingState = HEAT →
        p.heatSetpoint = toFahrenheit s.TemperatureDisplayUnits s.TargetTemperature ∧
        p.coolSetpoint = toFahrenheit s.TemperatureDisplayUnits s.CoolingThresholdTemperature) ∧
      (s.TargetHeatingCoolingState = COOL →
        p.coolSetpoint = toFahrenheit s.TemperatureDisplayUnits s.TargetTemperature ∧
        p.heatSetpoint = toFahrenheit s.TemperatureDisplayUnits s.HeatingThresholdTemperature) ∧
      (s.TargetHeatingCoolingState = AUTO ∨ s.TargetHeatingCoolingState = OFF →
        p.heatSetpoint = toFahrenheit s.TemperatureDisplayUnits s.HeatingThresholdTemperature ∧
        p.coolSetpoint = toFahrenheit s.TemperatureDisplayUnits s.CoolingThresholdTemperature) := by
    intro p hp
    rw [pushChangesBody] at hp
    simp only [Option.some.injEq] at hp
    subst hp
    refine ⟨rfl, rfl, fun hH => ?_, fun hC => ?_, fun hAO => ?_⟩
    · simp [hH, HEAT]
    · simp [hC, COOL, HEAT]
    · rcases hAO with h | h <;> simp [h, AUTO, OFF, HEAT, COOL]
  unfold pushChanges
  split_ifs with h1 h2 h3
  · exact ⟨iff_of_true (by simp [pushChangesBody]) (Or.inl h1),
      by simp [pushChangesBody], hbody⟩
  · exact ⟨iff_of_true (by simp [pushChangesBody]) (Or.inr (Or.inl h2)),
      by simp [pushChangesBody], hbody⟩
  · exact ⟨iff_of_true (by simp [pushChangesBody]) (Or.inr (Or.inr h3)),
      by simp [pushChangesBody], hbody⟩
  · exact ⟨iff_of_false (by simp) (by tauto),
      rfl, fun p hp => by simp at hp⟩

/-- C2: `apiError` publishes the error marker to exactly the characteristics
`updateHomeKitCharacteristics` owns (the eight thermostat characteristics,
plus the two fan characteristics when the fan capability is visible), every
one of them receiving the marker; after a push failure on either channel
the in-progress flag of that channel is cleared (and nothing else of the
state changes), and the refresh-failure path broadcasts the same list while
triggering the token refresh. -/
theorem apiError_broadcast (s : TCCState) :
    ((apiError s).map Prod.fst = (updateHomeKitCharacteristics s).map Prod.fst) ∧
    (∀ cp : Characteristic × Published, cp ∈ apiError s → cp.2 = Published.errorMarker) ∧
    ((thermostatTickFailure s).1 = { s with thermostatUpdateInProgress := false }) ∧
    ((thermostatTickFailure s).2 = apiError s) ∧
    ((fanTickFailure s).1 = { s with fanUpdateInProgress := false }) ∧
    ((fanTickFailure s).2 = apiError s) ∧
    ((refreshStatusFailure s).1 = apiError s) ∧
    ((refreshStatusFailure s).2 = true) := by
  refine ⟨?_, ?_, rfl, rfl, rfl, rfl, rfl, rfl⟩
  · by_cases hf : fanVisible s <;>
      simp [apiError, updateHomeKitCharacteristics, hf]
  · intro cp hcp
    by_cases hf : fanVisible s <;> simp [apiError, hf] at hcp <;>
      rcases hcp with rfl | rfl | rfl | rfl | rfl | rfl | rfl | rfl | rfl | rfl <;> rfl


/-- C3: every host-originated set handler synchronously mutates exactly its
corresponding characteristic field, emits the matching pending-change
signal followed by the null acknowledgement, and performs no network call;
`setTargetHeatingCoolingState` additionally recomputes the target
temperature from the current remote setpoints for the new mode (Heat: heat
setpoint, otherwise cool setpoint) and publishes it, all before any network
activity. -/
theorem setHandlers_spec (s : TCCState) (v : ℚ) (m a f : ℕ) :
    ((setTargetTemperature s v).1 = { s with TargetTemperature := v }) ∧
    ((setTargetTemperature s v).2 = [HKEvent.signalThermostat, HKEvent.ackNull]) ∧
    ((setHeatingThresholdTemperature s v).1 = { s with HeatingThresholdTemperature := v }) ∧
    ((setHeatingThresholdTemperature s v).2 = [HKEvent.signalThermostat, HKEvent.ackNull]) ∧
    ((setCoolingThresholdTemperature s v).1 = { s with CoolingThresholdTemperature := v }) ∧
    ((setCoolingThresholdTemperature s v).2 = [HKEvent.signalThermostat, HKEvent.ackNull]) ∧
    ((setActive s a).1 = { s with Active := a }) ∧
    ((setActive s a).2 = [HKEvent.signalFan, HKEvent.ackNull]) ∧
    ((setTargetFanState s f).1 = { s with TargetFanState := f }) ∧
    ((setTargetFanState s f).2 = [HKEvent.signalFan, HKEvent.ackNull]) ∧
    ((setTargetHeatingCoolingState s m).1 =
      { s with TargetHeatingCoolingState := m,
               TargetTemperature :=
                 if m = HEAT then
                   toCelsius s.TemperatureDisplayUnits s.device.changeableValues.heatSetpoint
                 else
                   toCelsius s.TemperatureDisplayUnits s.device.changeableValues.coolSetpoint }) ∧
    ((setTargetHeatingCoolingState s m).2 =
      [HKEvent.publishTT
        (if m = HEAT then
          toCelsius s.TemperatureDisplayUnits s.device.changeableValues.heatSetpoint
        else
          toCelsius s.TemperatureDisplayUnits s.device.changeableValues.coolSetpoint),
       HKEvent.signalThermostat, HKEvent.ackNull]) ∧
    (HKEvent.networkCall ∉ (setTargetTemperature s v).2) ∧
    (HKEvent.networkCall ∉ (setHeatingThresholdTemperature s v).2) ∧
    (HKEvent.networkCall ∉ (setCoolingThresholdTemperature s v).2) ∧
    (HKEvent.networkCall ∉ (setActive s a).2) ∧
    (HKEvent.networkCall ∉ (setTargetFanState s f).2) ∧
    (HKEvent.networkCall ∉ (setTargetHeatingCoolingState s m).2) := by
  refine ⟨rfl, rfl, rfl, rfl, rfl, rfl, rfl, rfl, rfl, rfl, rfl, rfl,
    ?_, ?_, ?_, ?_, ?_, ?_⟩ <;> simp [setTargetTemperature, setHeatingThresholdTemperature,
      setCoolingThresholdTemperature, setActive, setTargetFanState,
      setTargetHeatingCoolingState]


/-- C9: `pushFanChanges` always re-runs the refresh path, its outcome is
independent of the last-known remote fan state (`deviceFan`), and when the
fan capability is visible it always issues a write whose mode is mapped
from (TargetFanState, Active): Auto maps to 'Auto' for any Active value,
Manual with Active to 'On', Manual with Inactive to 'Circulate'. -/
theorem pushFanChanges_spec (s : TCCState) :
    ((pushFanChanges s).refreshed = true) ∧
    (∀ df : Option FanCV, pushFanChanges { s with deviceFan := df } = pushFanChanges s) ∧
    (fanVisible s = true →
      ((pushFanChanges s).payload.isSome = true) ∧
      (s.TargetFanState = FAN_AUTO → (pushFanChanges s).payload = some "Auto") ∧
      (s.TargetFanState = MANUAL → s.Active = ACTIVE →
        (pushFanChanges s).payload = some "On") ∧
      (s.TargetFanState = MANUAL → s.Active = INACTIVE →
        (pushFanChanges s).payload = some "Circulate")) := by
  refine ⟨?_, fun df => rfl, fun hf => ⟨?_, fun h1 => ?_, fun h1 h2 => ?_, fun h1 h2 => ?_⟩⟩
  · unfold pushFanChanges; split <;> rfl
  · simp [pushFanChanges, hf]
  · simp [pushFanChanges, hf, h1]
  · simp [pushFanChanges, hf, h1, h2, FAN_AUTO, MANUAL, ACTIVE, INACTIVE]
  · simp [pushFanChanges, hf, h1, h2, FAN_AUTO, MANUAL, ACTIVE, INACTIVE]

/-- C10 (amended): in every state whose remote heat setpoint is 0, setting
the target state to Heat unconditionally overwrites the target temperature
with `toCelsius 0` — 0 in Celsius mode, -18 in Fahrenheit mode — discarding
the previous value; a refresh in the same state retains the previous target
temperature when `minHeatSetpoint` is 0 (falsy), but overwrites it with
`toCelsius 0` likewise when `minHeatSetpoint` is nonzero. -/
theorem setTargetHCS_zeroSetpoint (s : TCCState) :
    (s.device.changeableValues.heatSetpoint = 0 →
      ((setTargetHeatingCoolingState s HEAT).1.TargetTemperature
          = toCelsius s.TemperatureDisplayUnits 0) ∧
      (s.TemperatureDisplayUnits = CELSIUS →
        (setTargetHeatingCoolingState s HEAT).1.TargetTemperature = 0) ∧
      (s.TemperatureDisplayUnits = FAHRENHEIT →
        (setTargetHeatingCoolingState s HEAT).1.TargetTemperature = -18) ∧
      (s.device.changeableValues.mode = HMode.heat → s.device.minHeatSetpoint = 0 →
        (parseStatus s).TargetTemperature = s.TargetTemperature) ∧
      (s.device.changeableValues.mode = HMode.heat → s.device.minHeatSetpoint ≠ 0 →
        (parseStatus s).TargetTemperature
          = toCelsius (parseStatus s).TemperatureDisplayUnits 0)) := by
  intro h0
  have hset : (setTargetHeatingCoolingState s HEAT).1.TargetTemperature
      = toCelsius s.TemperatureDisplayUnits 0 := by
    simp [setTargetHeatingCoolingState, h0]
  refine ⟨hset, fun hu => ?_, fun hu => ?_, fun hm hmin => ?_, fun hm hmin => ?_⟩
  · rw [hset, hu]; simp [toCelsius, CELSIUS]
  · rw [hset, hu]; norm_num [toCelsius, jsRound, FAHRENHEIT, CELSIUS]
  · rw [parseStatus_TT, if_pos (by rw [hm]; rfl), if_neg (by rw [h0]; exact lt_irrefl 0),
      if_neg (fun hc => hc hmin)]
  · rw [parseStatus_TT, parseStatus_TDU, if_pos (by rw [hm]; rfl),
      if_neg (by rw [h0]; exact lt_irrefl 0), if_pos hmin, h0]

/-- C10 counterexample: with Fahrenheit display units, `heatSetpoint = 0`
and `minHeatSetpoint = 40`, setting Heat writes -18 (not -17.5 as the claim
states), and a refresh in the same state also overwrites the previous
target temperature (25 becomes -18) rather than retaining it. -/
theorem setTargetHCS_zeroSetpoint_cex :
    ((setTargetHeatingCoolingState exC10 HEAT).1.TargetTemperature = -18) ∧
    ((setTargetHeatingCoolingState exC10 HEAT).1.TargetTemperature ≠ -(35 : ℚ) / 2) ∧
    ((parseStatus exC10).TargetTemperature = -18) ∧
    ((parseStatus exC10).TargetTemperature ≠ exC10.TargetTemperature) := by
  have h1 : (setTargetHeatingCoolingState exC10 HEAT).1.TargetTemperature = -18 := by
    rw [show (setTargetHeatingCoolingState exC10 HEAT).1.TargetTemperature
        = toCelsius exC10.TemperatureDisplayUnits 0 from by
      simp [setTargetHeatingCoolingState, exC10]]
    norm_num [toCelsius, jsRound, exC10, FAHRENHEIT, CELSIUS]
  have h2 : (parseStatus exC10).TargetTemperature = -18 := by
    rw [parseStatus_TT, parseUnits_TDU]
    norm_num [exC10, toCelsius, jsRound, modes, HEAT, FAHRENHEIT, CELSIUS]
    decide
  refine ⟨h1, by rw [h1]; norm_num, h2, by rw [h2]; norm_num [exC10]⟩


/-- Witness for C1 at `exState`: its cooling threshold (25) differs from the
normalized remote cool setpoint, so a write is issued. -/
theorem pushChanges_spec_witness : (pushChanges exState).payload.isSome = true :=
  (pushChanges_spec exState).1.mpr
    (Or.inr (Or.inl (by
      norm_num [exState, exDevice, toCelsius, jsRound, FAHRENHEIT, CELSIUS])))

/-- Witness for C2 at `exState`: the fan's target-state characteristic is
among the broadcast pairs and carries the error marker. -/
theorem apiError_broadcast_witness :
    (Characteristic.targetFanState, Published.errorMarker).2 = Published.errorMarker :=
  (apiError_broadcast exState).2.1
    (Characteristic.targetFanState, Published.errorMarker) (by decide)

/-- Witness for C7 at `exC8`: its heat setpoint is 0, so the refresh leaves
the heating threshold unchanged. -/
theorem parseStatus_thresholds_witness :
    (parseStatus exC8).HeatingThresholdTemperature = exC8.HeatingThresholdTemperature :=
  (parseStatus_thresholds exC8).1 (le_refl 0)

/-- Witness for C8 (amended) at `exState`: Heat mode with a positive heat
setpoint, so the target temperature is the normalized heat setpoint. -/
theorem parseStatus_targetTemperature_witness :
    (parseStatus exState).TargetTemperature
      = toCelsius (parseStatus exState).TemperatureDisplayUnits
          exState.device.changeableValues.heatSetpoint :=
  ((parseStatus_targetTemperature exState).2.1
      (by rw [parseStatus_THCS]; rfl)).1
    (Or.inl (by norm_num [exState, exDevice]))

/-- Witness for C9 at `exState`: fan visible, Manual and Inactive, so the
payload mode is 'Circulate'. -/
theorem pushFanChanges_spec_witness :
    (pushFanChanges exState).payload = some "Circulate" :=
  (((pushFanChanges_spec exState).2.2 (by decide)).2.2.2) rfl rfl

/-- Witness for C10 (amended) at `exC10`: the heat setpoint is 0, so setting
Heat overwrites the target temperature with `toCelsius 0`. -/
theorem setTargetHCS_zeroSetpoint_witness :
    (setTargetHeatingCoolingState exC10 HEAT).1.TargetTemperature
      = toCelsius exC10.TemperatureDisplayUnits 0 :=
  ((setTargetHCS_zeroSetpoint exC10) rfl).1

end TCC
